import Mathlib

/-!
Verification of `sync_script.py`: a shallow embedding of the script's data
model and operations, with theorems checking its documented behaviour.

Conventions of the embedding:
* Python strings are `String`; response bodies and HTML pages, which the
  script scans character by character with regular expressions, are
  `List Char`.
* Instants (Python `datetime` values) are integers counting microseconds
  since the Unix epoch; `datetime.timestamp()` composed with `int()` is
  truncating integer division (`Int.tdiv`), which matches CPython's
  truncation toward zero.
* Library calls external to the repository are parameters of the embedded
  functions: `jl` models `json.loads` restricted to the fields the script
  reads, `pd` models `datetime.fromisoformat` composed with
  `astimezone(TIMEZONE)`, and `doGet` / `doPost` model the HTTP session.
  A `none` result of `jl` or `pd` is a raised library exception.
* A raised exception is an `Except.error`; the network requests actually
  issued are returned as an explicit trace list, so that "no network I/O
  happened" is visible in the result.
-/

namespace SyncScript

/-- One JSON event object, restricted to what the script reads from it: a
finite map from string keys to string values. -/
abbrev JItem := List (String × String)

/-- Python `item[k]` / `item.get(k, d)` without the default: the first
binding of key `k`, `none` when the key is absent. -/
def lookupKey (k : String) (item : JItem) : Option String :=
  (item.find? fun p => p.1 == k).map fun p => p.2

/-- The decoded top-level JSON object of the AJAX response, restricted to
the only key the script reads, as in `data.get("events", [])`
(src/sync_script.py line 141); `none` means the key is absent. -/
structure JTop where
  events : Option (List JItem)

/-- One normalized event record, the dict built by `fetch_events`
(src/sync_script.py lines 150-157). `start` and `end_` are epoch
microseconds of the parsed, timezone-converted datetimes. -/
structure EventRec where
  uid : String
  summary : String
  start : Int
  end_ : Int
  location : String
  description : String
deriving DecidableEq

/-- The attempt `datetime.fromisoformat(item["start"]).astimezone(TIMEZONE)`
(line 145): key access followed by the library parse `pd`; `none` models a
raised exception, either `KeyError` or a parse failure. -/
def itemStart (pd : String → Option Int) (item : JItem) : Option Int :=
  (lookupKey "start" item).bind pd

/-- The attempt `datetime.fromisoformat(item["end"]).astimezone(TIMEZONE)`
(line 146). -/
def itemEnd (pd : String → Option Int) (item : JItem) : Option Int :=
  (lookupKey "end" item).bind pd

/-- Whether the try-block of the per-item loop succeeds on `item`. -/
def itemParses (pd : String → Option Int) (item : JItem) : Bool :=
  (itemStart pd item).isSome && (itemEnd pd item).isSome

/-- The record appended for a successfully parsed item (lines 150-157):
`id`, `title`, `room` and `description` are read with defaults. -/
def mkRec (item : JItem) (s e : Int) : EventRec :=
  { uid := (lookupKey "id" item).getD ""
    summary := (lookupKey "title" item).getD "Cours"
    start := s
    end_ := e
    location := (lookupKey "room" item).getD ""
    description := (lookupKey "description" item).getD "" }

/-- The per-item loop of `fetch_events` (lines 142-158): parse each item's
dates, skip the item when either date raises, keep the rest in order. -/
def parseItems (pd : String → Option Int) : List JItem → List EventRec
  | [] => []
  | item :: rest =>
    match itemStart pd item, itemEnd pd item with
    | some s, some e => mkRec item s e :: parseItems pd rest
    | _, _ => parseItems pd rest

/-- Greedy tail of the DOTALL regex on line 131: the prefix of `l` up to
and including the last closing brace of `l`, `none` when `l` has none. -/
def greedyToLastBrace : List Char → Option (List Char)
  | [] => none
  | c :: cs =>
    match greedyToLastBrace cs with
    | some inner => some (c :: inner)
    | none => if c = '}' then some ['}'] else none

/-- `re.search` of the brace regex with DOTALL (line 131): try each start
position left to right; at an opening brace, match greedily up to the last
closing brace that follows it. -/
def braceSearch : List Char → Option (List Char)
  | [] => none
  | c :: cs =>
    if c = '{' then
      match greedyToLastBrace cs with
      | some inner => some (c :: inner)
      | none => braceSearch cs
    else braceSearch cs

/-- Lines 129-158 of `fetch_events`: locate the JSON object embedded in the
POST response body, decode it (`jl` models `json.loads`, `none` a decode
error), and run the per-item loop; a located-object or decode failure is
logged and yields the empty list. -/
def processBody (jl : List Char → Option JTop) (pd : String → Option Int)
    (body : List Char) : List EventRec :=
  match braceSearch body with
  | none => []
  | some txt =>
    match jl txt with
    | none => []
    | some data => parseItems pd (data.events.getD [])

/-- The literal part of the ViewState regex (line 65). -/
def vsMarker : List Char :=
  "name=\"javax.faces.ViewState\" value=\"".toList

/-- The greedy capture group of the ViewState regex: everything before the
next double quote, `none` when no double quote follows. -/
def takeToQuote : List Char → Option (List Char)
  | [] => none
  | c :: cs => if c = '"' then some [] else (takeToQuote cs).map fun v => c :: v

/-- Whether the ViewState regex matches at the head of `l`, and the
captured value when it does: the marker, then one or more characters other
than a double quote, then a double quote. -/
def vsMatchAt (l : List Char) : Option (List Char) :=
  if vsMarker.isPrefixOf l then
    match takeToQuote (l.drop vsMarker.length) with
    | some v => if v = [] then none else some v
    | none => none
  else none

/-- `re.search` for the ViewState regex: try the regex at each position of
the page, left to right. -/
def scanViewstate : List Char → Option (List Char)
  | [] => none
  | c :: cs =>
    match vsMatchAt (c :: cs) with
    | some v => some v
    | none => scanViewstate cs

/-- Exceptions raised by the script. -/
inductive PyErr where
  | valueError : String → PyErr
  | runtimeError : String → PyErr
  | httpError : Nat → PyErr
deriving DecidableEq

/-- `_extract_viewstate` (lines 63-68): the first regex match on the page,
or the `RuntimeError` raised when the page has none. -/
def extract_viewstate (html : List Char) : Except PyErr (List Char) :=
  match scanViewstate html with
  | some v => .ok v
  | none =>
    .error (.runtimeError "Could not find ViewState token on the planning page")

/-- The environment variables read at import time (lines 44-49); `none` is
an unset variable. `LOGIN_URL` and `ENT_EVENTS_URL` are read with default
value the empty string, hence the `Option.getD` at the use sites. -/
structure Env where
  username : Option String
  password : Option String
  login_url : Option String
  ent_events_url : Option String

/-- Python truthiness test `not x` on an optional string: holds for `None`
and for the empty string. -/
def falsyOpt : Option String → Bool
  | none => true
  | some s => s.isEmpty

/-- An HTTP response: status code and body text. -/
structure HttpResp where
  status : Nat
  body : List Char

/-- `Response.raise_for_status`: an exception exactly for the 4xx and 5xx
status codes. -/
def isHttpError (status : Nat) : Bool :=
  400 ≤ status && status < 600

/-- The dynamic fields of the AJAX POST form payload (lines 97-116); the
remaining payload fields are constants and are omitted here. -/
structure Payload where
  viewstate : List Char
  start_ts : Int
  end_ts : Int
deriving DecidableEq

/-- One network request issued through the session. -/
inductive NetOp where
  | get : String → NetOp
  | postLogin : String → NetOp
  | postPlanning : String → Payload → NetOp
deriving DecidableEq

/-- `login` (lines 51-61): credential and URL checks, then the form POST
modelled by `doPost`, then `raise_for_status` on the reply. Returns the
requests performed and the outcome. -/
def login (env : Env) (doPost : String → HttpResp) :
    List NetOp × Except PyErr Unit :=
  if falsyOpt env.username || falsyOpt env.password then
    ([], .error (.valueError
      "USERNAME and PASSWORD environment variables must be set."))
  else if (env.login_url.getD "").isEmpty then
    ([], .error (.valueError "LOGIN_URL environment variable must be set."))
  else
    let url := env.login_url.getD ""
    let r := doPost url
    ([.postLogin url],
      if isHttpError r.status then .error (.httpError r.status) else .ok ())

/-- Microseconds in `timedelta(days=1)`. -/
def usPerDay : Int := 86400000000

/-- `int(dt.timestamp() * 1000)`: epoch microseconds to whole milliseconds,
truncated toward zero exactly as Python `int()` truncates. -/
def tsMs (t : Int) : Int := t.tdiv 1000

/-- `int(dt.timestamp())`: whole epoch seconds, truncated toward zero. -/
def timestampSec (t : Int) : Int := t.tdiv 1000000

/-- `fetch_events` (lines 70-158). Parameters stand for the outside world:
`doGet` and `doPost` are the session's requests, `now` the clock reading in
epoch microseconds, `weekday` the calendar weekday of an instant, `jl` the
JSON decoder and `pd` the ISO-8601 parse composed with the timezone
conversion. Returns the issued requests and the outcome. -/
def fetch_events (env : Env) (doGet : String → HttpResp)
    (doPost : String → Payload → HttpResp) (now : Int)
    (weekday : Int → Nat) (jl : List Char → Option JTop)
    (pd : String → Option Int) :
    List NetOp × Except PyErr (List EventRec) :=
  if (env.ent_events_url.getD "").isEmpty then
    ([], .error (.valueError "PLANNING_URL environment variable must be set."))
  else
    let url := env.ent_events_url.getD ""
    let r := doGet url
    if isHttpError r.status then
      ([.get url], .error (.httpError r.status))
    else
      match extract_viewstate r.body with
      | .error e => ([.get url], .error e)
      | .ok vs =>
        let start_of_week := now - (weekday now : Int) * usPerDay
        let end_of_week := start_of_week + 7 * usPerDay
        let payload : Payload := ⟨vs, tsMs start_of_week, tsMs end_of_week⟩
        let pr := doPost url payload
        if isHttpError pr.status then
          ([.get url, .postPlanning url payload], .error (.httpError pr.status))
        else
          ([.get url, .postPlanning url payload],
            .ok (processBody jl pd pr.body))

/-- One VEVENT as the script fills it (lines 166-175): `location` and
`description` are `none` when the corresponding `add` call is skipped. -/
structure VEvent where
  uid : String
  summary : String
  dtstart : Int
  dtend : Int
  location : Option String
  description : Option String
deriving DecidableEq

/-- The calendar object with its two product-identifier fields
(lines 162-164) and its ordered components. -/
structure ICal where
  prodid : String
  version : String
  components : List VEvent
deriving DecidableEq

/-- The loop body of `build_calendar` for one record (lines 165-176). -/
def buildEvent (e : EventRec) : VEvent :=
  { uid :=
      if e.uid = "" then e.summary ++ "-" ++ toString (timestampSec e.start)
      else e.uid
    summary := e.summary
    dtstart := e.start
    dtend := e.end_
    location := if e.location = "" then none else some e.location
    description := if e.description = "" then none else some e.description }

/-- `build_calendar` (lines 160-177). -/
def build_calendar (events : List EventRec) : ICal :=
  { prodid := "-//EDT Sync//github.com//"
    version := "2.0"
    components := events.map buildEvent }

/-! Helper lemmas. -/

theorem parseItems_cons_ok (pd : String → Option Int) (item : JItem)
    (rest : List JItem) (s e : Int) (hs : itemStart pd item = some s)
    (he : itemEnd pd item = some e) :
    parseItems pd (item :: rest) = mkRec item s e :: parseItems pd rest := by
  simp [parseItems, hs, he]

theorem parseItems_cons_skip (pd : String → Option Int) (item : JItem)
    (rest : List JItem) (h : itemParses pd item = false) :
    parseItems pd (item :: rest) = parseItems pd rest := by
  cases hs : itemStart pd item with
  | none => simp [parseItems, hs]
  | some s =>
    cases he : itemEnd pd item with
    | none => simp [parseItems, hs, he]
    | some e => simp [itemParses, hs, he] at h

theorem parseItems_filter (pd : String → Option Int) (items : List JItem) :
    parseItems pd items
      = (items.filter fun it => itemParses pd it).map
          fun it => mkRec it ((itemStart pd it).getD 0) ((itemEnd pd it).getD 0) := by
  induction items with
  | nil => rfl
  | cons item rest ih =>
    cases hs : itemStart pd item with
    | none => simp [parseItems, itemParses, hs, ih]
    | some s =>
      cases he : itemEnd pd item with
      | none => simp [parseItems, itemParses, hs, he, ih]
      | some e => simp [parseItems, itemParses, hs, he, ih]

theorem greedyToLastBrace_none (l : List Char) (h : '}' ∉ l) :
    greedyToLastBrace l = none := by
  induction l with
  | nil => rfl
  | cons c cs ih =>
    simp only [List.mem_cons, not_or] at h
    simp only [greedyToLastBrace, ih h.2]
    exact if_neg fun hc => h.1 hc.symm

theorem greedyToLastBrace_append (mid post : List Char) (h : '}' ∉ post) :
    greedyToLastBrace (mid ++ '}' :: post) = some (mid ++ ['}']) := by
  induction mid with
  | nil =>
    simp [List.nil_append, greedyToLastBrace, greedyToLastBrace_none post h]
  | cons c mid ih =>
    simp only [List.cons_append, greedyToLastBrace, List.append_eq, ih]

theorem braceSearch_skip (pre l : List Char) (h : '{' ∉ pre) :
    braceSearch (pre ++ l) = braceSearch l := by
  induction pre with
  | nil => rfl
  | cons c pre ih =>
    simp only [List.mem_cons, not_or] at h
    simp only [List.cons_append, braceSearch, List.append_eq, ih h.2]
    rw [if_neg fun hc => h.1 hc.symm]

theorem takeToQuote_append (v s : List Char) (h : '"' ∉ v) :
    takeToQuote (v ++ '"' :: s) = some v := by
  induction v with
  | nil => simp [takeToQuote]
  | cons c v ih =>
    simp only [List.mem_cons, not_or] at h
    simp only [List.cons_append, takeToQuote, List.append_eq, ih h.2]
    rw [if_neg fun hc => h.1 hc.symm]
    rfl

theorem vsMatchAt_marker (v s : List Char) (hv : v ≠ []) (hq : '"' ∉ v) :
    vsMatchAt (vsMarker ++ (v ++ '"' :: s)) = some v := by
  rw [vsMatchAt,
    if_pos (List.isPrefixOf_iff_prefix.mpr (List.prefix_append vsMarker _)),
    List.drop_left, takeToQuote_append v s hq]
  simp [hv]

theorem vsMatchAt_nil : vsMatchAt [] = none := by decide

theorem scanViewstate_of_match (l v : List Char) (h : vsMatchAt l = some v) :
    scanViewstate l = some v := by
  cases l with
  | nil => rw [vsMatchAt_nil] at h; exact absurd h (by simp)
  | cons c cs => rw [scanViewstate, h]

theorem scanViewstate_cons_none (c : Char) (cs : List Char)
    (h : vsMatchAt (c :: cs) = none) :
    scanViewstate (c :: cs) = scanViewstate cs := by
  rw [scanViewstate, h]

theorem scanViewstate_append (p v s : List Char) (hv : v ≠ []) (hq : '"' ∉ v)
    (hfirst : ∀ i < p.length,
      vsMatchAt ((p ++ (vsMarker ++ (v ++ '"' :: s))).drop i) = none) :
    scanViewstate (p ++ (vsMarker ++ (v ++ '"' :: s))) = some v := by
  induction p with
  | nil => exact scanViewstate_of_match _ v (vsMatchAt_marker v s hv hq)
  | cons c p ih =>
    have h0 := hfirst 0 (by simp)
    rw [List.drop_zero, List.cons_append] at h0
    rw [List.cons_append, scanViewstate_cons_none _ _ h0]
    exact ih fun i hi => by
      have := hfirst (i + 1) (by simpa using Nat.succ_lt_succ hi)
      rwa [List.cons_append, List.drop_succ_cons] at this

theorem scanViewstate_none (html : List Char)
    (h : ∀ i < html.length, vsMatchAt (html.drop i) = none) :
    scanViewstate html = none := by
  induction html with
  | nil => rfl
  | cons c cs ih =>
    rw [scanViewstate_cons_none c cs (by simpa using h 0 (by simp))]
    exact ih fun i hi => by
      have := h (i + 1) (by simpa using Nat.succ_lt_succ hi)
      rwa [List.drop_succ_cons] at this

/-! Theorems for the claims. -/

/-- C5: the calendar built from a list of records has exactly one entry per
record, in order: `build_calendar` never drops and never duplicates. -/
theorem C5_entry_count (events : List EventRec) :
    (build_calendar events).components = events.map buildEvent
    ∧ (build_calendar events).components.length = events.length := by
  exact ⟨rfl, by simp [build_calendar]⟩

/-- C7: for a record of the built calendar, `location` and `description`
are attached exactly when non-empty, while `summary`, `start` and `end` are
copied unconditionally. -/
theorem C7_optional_fields (events : List EventRec) (e : EventRec)
    (h : e ∈ events) :
    buildEvent e ∈ (build_calendar events).components
    ∧ ((buildEvent e).location = if e.location = "" then none else some e.location)
    ∧ ((buildEvent e).description
        = if e.description = "" then none else some e.description)
    ∧ (buildEvent e).summary = e.summary
    ∧ (buildEvent e).dtstart = e.start
    ∧ (buildEvent e).dtend = e.end_ := by
  refine ⟨?_, rfl, rfl, rfl, rfl, rfl⟩
  simp only [build_calendar, List.mem_map]
  exact ⟨e, h, rfl⟩

/-- Witness for C7 at a concrete record. -/
theorem C7_optional_fields_witness :
    buildEvent ⟨"1", "Math", 0, 3600000000, "A1", ""⟩
      ∈ (build_calendar [⟨"1", "Math", 0, 3600000000, "A1", ""⟩]).components
    ∧ (buildEvent ⟨"1", "Math", 0, 3600000000, "A1", ""⟩).location = some "A1"
    ∧ (buildEvent ⟨"1", "Math", 0, 3600000000, "A1", ""⟩).description = none := by
  have h := C7_optional_fields [⟨"1", "Math", 0, 3600000000, "A1", ""⟩]
    ⟨"1", "Math", 0, 3600000000, "A1", ""⟩ (by simp)
  refine ⟨h.1, ?_, ?_⟩
  · rw [h.2.1]; rfl
  · rw [h.2.2.1]; rfl

/-- C8: no start-before-end validation anywhere: a record whose start is
after its end still builds, with both instants passed through unchanged. -/
theorem C8_no_order_validation (e : EventRec) (_h : e.end_ < e.start) :
    (buildEvent e).dtstart = e.start ∧ (buildEvent e).dtend = e.end_
    ∧ (build_calendar [e]).components = [buildEvent e] :=
  ⟨rfl, rfl, rfl⟩

/-- Witness for C8 at a record with start after end. -/
theorem C8_no_order_validation_witness :
    (buildEvent ⟨"1", "X", 100, 50, "", ""⟩).dtstart = 100
    ∧ (buildEvent ⟨"1", "X", 100, 50, "", ""⟩).dtend = 50 :=
  ⟨(C8_no_order_validation ⟨"1", "X", 100, 50, "", ""⟩ (by decide)).1,
   (C8_no_order_validation ⟨"1", "X", 100, 50, "", ""⟩ (by decide)).2.1⟩

/-- C4: a record with empty uid gets the synthesized identifier made of the
summary, a hyphen and the whole-second start timestamp; every entry of the
built calendar has a non-empty uid. -/
theorem C4_uid_fallback (e : EventRec) (events : List EventRec) :
    (e.uid = "" →
      (buildEvent e).uid = e.summary ++ "-" ++ toString (timestampSec e.start))
    ∧ (∀ v ∈ (build_calendar events).components, v.uid ≠ "") := by
  constructor
  · intro h
    simp [buildEvent, h]
  · intro v hv
    simp only [build_calendar, List.mem_map] at hv
    obtain ⟨r, _, rfl⟩ := hv
    by_cases h : r.uid = ""
    · show (if r.uid = "" then _ else _) ≠ _
      rw [if_pos h]
      intro hEq
      have hlen := congrArg String.length hEq
      rw [String.length_append, String.length_append] at hlen
      have h1 : ("-" : String).length = 1 := rfl
      have h0 : ("" : String).length = 0 := rfl
      rw [h1, h0] at hlen
      omega
    · show (if r.uid = "" then _ else _) ≠ _
      rw [if_neg h]
      exact h

/-- C3: the ViewState extractor returns exactly the quoted value following
the first matching occurrence of the marker, and raises a RuntimeError on a
page where the regex matches at no position. -/
theorem C3_viewstate_extraction (p v s html : List Char) :
    (v ≠ [] → '"' ∉ v →
      (∀ i < p.length,
        vsMatchAt ((p ++ (vsMarker ++ (v ++ '"' :: s))).drop i) = none) →
      extract_viewstate (p ++ (vsMarker ++ (v ++ '"' :: s))) = .ok v)
    ∧ ((∀ i < html.length, vsMatchAt (html.drop i) = none) →
      extract_viewstate html = .error (.runtimeError
        "Could not find ViewState token on the planning page")) := by
  constructor
  · intro hv hq hfirst
    rw [extract_viewstate, scanViewstate_append p v s hv hq hfirst]
  · intro h
    rw [extract_viewstate, scanViewstate_none html h]

/-- Witness for C3: a page embedding the marker around the token XYZ, and a
page with no marker at all. -/
theorem C3_viewstate_extraction_witness :
    extract_viewstate
        ("<p>".toList ++ (vsMarker ++ ("XYZ".toList ++ '"' :: "</p>".toList)))
      = .ok "XYZ".toList
    ∧ extract_viewstate "<html></html>".toList
      = .error (.runtimeError
        "Could not find ViewState token on the planning page") :=
  ⟨(C3_viewstate_extraction "<p>".toList "XYZ".toList "</p>".toList
      "<html></html>".toList).1 (by decide) (by decide) (by decide),
   (C3_viewstate_extraction "<p>".toList "XYZ".toList "</p>".toList
      "<html></html>".toList).2 (by decide)⟩

/-- C6: with a required environment variable unset or empty, the
corresponding step returns the configuration ValueError with an empty
request trace, so no network request is issued first. -/
theorem C6_config_errors (env : Env) (doPostLogin : String → HttpResp)
    (doGet : String → HttpResp) (doPost : String → Payload → HttpResp)
    (now : Int) (weekday : Int → Nat) (jl : List Char → Option JTop)
    (pd : String → Option Int) :
    ((falsyOpt env.username || falsyOpt env.password) = true →
      login env doPostLogin = ([], .error (.valueError
        "USERNAME and PASSWORD environment variables must be set.")))
    ∧ (falsyOpt env.username = false → falsyOpt env.password = false →
      env.login_url.getD "" = "" →
      login env doPostLogin = ([], .error (.valueError
        "LOGIN_URL environment variable must be set.")))
    ∧ (env.ent_events_url.getD "" = "" →
      fetch_events env doGet doPost now weekday jl pd
        = ([], .error (.valueError
            "PLANNING_URL environment variable must be set."))) := by
  refine ⟨?_, ?_, ?_⟩
  · intro h
    simp [login, h]
  · intro h1 h2 h3
    have he : ("" : String).isEmpty = true := rfl
    simp [login, h1, h2, h3, he]
  · intro h
    have he : ("" : String).isEmpty = true := rfl
    simp [fetch_events, h, he]

/-- Witness for C6: the empty environment. -/
theorem C6_config_errors_witness :
    login ⟨none, none, none, none⟩ (fun _ => ⟨200, []⟩)
      = ([], .error (.valueError
          "USERNAME and PASSWORD environment variables must be set."))
    ∧ fetch_events ⟨none, none, none, none⟩ (fun _ => ⟨200, []⟩)
        (fun _ _ => ⟨200, []⟩) 0 (fun _ => 0) (fun _ => none) (fun _ => none)
      = ([], .error (.valueError
          "PLANNING_URL environment variable must be set.")) :=
  ⟨(C6_config_errors ⟨none, none, none, none⟩ (fun _ => ⟨200, []⟩)
      (fun _ => ⟨200, []⟩) (fun _ _ => ⟨200, []⟩) 0 (fun _ => 0)
      (fun _ => none) (fun _ => none)).1 rfl,
   (C6_config_errors ⟨none, none, none, none⟩ (fun _ => ⟨200, []⟩)
      (fun _ => ⟨200, []⟩) (fun _ _ => ⟨200, []⟩) 0 (fun _ => 0)
      (fun _ => none) (fun _ => none)).2.2 rfl⟩

/-- C9: the date range carried by the AJAX POST of `fetch_events` is the
week start, now minus the weekday offset in days, and that start plus seven
days, each truncated to whole milliseconds since the epoch. -/
theorem C9_week_range (env : Env) (doGet : String → HttpResp)
    (doPost : String → Payload → HttpResp) (now : Int) (weekday : Int → Nat)
    (jl : List Char → Option JTop) (pd : String → Option Int)
    (url : String) (vs : List Char)
    (hurl : env.ent_events_url = some url) (hne : url ≠ "")
    (hstatus : isHttpError (doGet url).status = false)
    (hvs : extract_viewstate (doGet url).body = .ok vs) :
    (fetch_events env doGet doPost now weekday jl pd).1
      = [NetOp.get url,
         NetOp.postPlanning url
           ⟨vs, (now - (weekday now : Int) * usPerDay).tdiv 1000,
                (now - (weekday now : Int) * usPerDay + 7 * usPerDay).tdiv 1000⟩] := by
  have hne' : url.isEmpty = false := by
    cases hi : url.isEmpty
    · rfl
    · exact absurd ((String.isEmpty_iff url).mp hi) hne
  rw [fetch_events]
  simp only [hurl, Option.getD_some, hne', Bool.false_eq_true, if_false,
    hstatus, hvs, tsMs]
  rw [apply_ite Prod.fst]
  simp

/-- Witness for C9: a one-token page, the zero instant and a constant
weekday function. -/
theorem C9_week_range_witness :
    (fetch_events ⟨none, none, none, some "u"⟩
        (fun _ => ⟨200, vsMarker ++ ('T' :: '"' :: [])⟩) (fun _ _ => ⟨200, []⟩)
        0 (fun _ => 0) (fun _ => none) (fun _ => none)).1
      = [NetOp.get "u", NetOp.postPlanning "u" ⟨['T'], 0, 604800000⟩] := by
  have h := C9_week_range ⟨none, none, none, some "u"⟩
      (fun _ => ⟨200, vsMarker ++ ('T' :: '"' :: [])⟩) (fun _ _ => ⟨200, []⟩)
      0 (fun _ => 0) (fun _ => none) (fun _ => none) "u" ['T']
      rfl (by decide) rfl rfl
  rw [h]
  rfl

/-- C2: the AJAX response handling locates the first greedy brace-delimited
segment of the body and decodes it; when no such segment exists, or the
decode fails, the result is the empty list rather than an exception. -/
theorem C2_embedded_json_extraction (jl : List Char → Option JTop)
    (pd : String → Option Int) (body : List Char) :
    (braceSearch body = none → processBody jl pd body = [])
    ∧ (∀ txt, braceSearch body = some txt → jl txt = none →
        processBody jl pd body = [])
    ∧ (∀ txt data, braceSearch body = some txt → jl txt = some data →
        processBody jl pd body = parseItems pd (data.events.getD []))
    ∧ (∀ pre mid post : List Char, '{' ∉ pre → '}' ∉ post →
        braceSearch (pre ++ '{' :: (mid ++ '}' :: post))
          = some ('{' :: (mid ++ ['}']))) := by
  refine ⟨?_, ?_, ?_, ?_⟩
  · intro h
    simp [processBody, h]
  · intro txt h hj
    simp [processBody, h, hj]
  · intro txt data h hj
    simp [processBody, h, hj]
  · intro pre mid post hpre hpost
    rw [braceSearch_skip pre _ hpre]
    simp [braceSearch, greedyToLastBrace_append mid post hpost]

/-- Witness for C2: a body with no opening brace yields no events, and the
regex picks the whole segment from the first opening brace to the last
closing brace. -/
theorem C2_embedded_json_extraction_witness :
    processBody (fun _ => none) (fun _ => none) "no json here".toList = []
    ∧ braceSearch ("ab".toList ++ '{' :: ("cd".toList ++ '}' :: "ef".toList))
        = some ('{' :: ("cd".toList ++ ['}'])) :=
  ⟨(C2_embedded_json_extraction (fun _ => none) (fun _ => none)
      "no json here".toList).1 (by decide),
   (C2_embedded_json_extraction (fun _ => none) (fun _ => none) []).2.2.2
      "ab".toList "cd".toList "ef".toList (by decide) (by decide)⟩

/-- C1: an item whose start or end fails datetime parsing is skipped while
every other item is still returned, in order; in particular a batch of two
well-formed items and one item with an invalid start yields exactly two
records. -/
theorem C1_parse_failure_isolation (pd : String → Option Int)
    (items : List JItem) :
    parseItems pd items
      = (items.filter fun it => itemParses pd it).map
          (fun it => mkRec it ((itemStart pd it).getD 0) ((itemEnd pd it).getD 0))
    ∧ ∀ i1 i2 i3 : JItem, itemParses pd i1 = true → itemParses pd i2 = true →
        itemStart pd i3 = none → (parseItems pd [i1, i2, i3]).length = 2 := by
  constructor
  · exact parseItems_filter pd items
  · intro i1 i2 i3 h1 h2 h3
    have hp3 : itemParses pd i3 = false := by simp [itemParses, h3]
    rw [parseItems_filter]
    simp [List.filter_cons, h1, h2, hp3]

/-- Witness for C1: two parse-able items and one with an unparsable start. -/
theorem C1_parse_failure_isolation_witness :
    (parseItems (fun s => if s = "G" then some 0 else none)
      [[("start", "G"), ("end", "G")],
       [("start", "G"), ("end", "G")],
       [("start", "B"), ("end", "G")]]).length = 2 :=
  (C1_parse_failure_isolation (fun s => if s = "G" then some 0 else none) []).2
    [("start", "G"), ("end", "G")] [("start", "G"), ("end", "G")]
    [("start", "B"), ("end", "G")] (by decide) (by decide) (by decide)

/-- C10: an item is skipped exactly when its start or end access-and-parse
raises, the absent key included; absent `id`, `title`, `room` or
`description` keys never cause a skip and get the defaults. -/
theorem C10_skip_iff_dates (pd : String → Option Int) (item : JItem)
    (rest : List JItem) :
    (parseItems pd (item :: rest) = parseItems pd rest
        ↔ itemStart pd item = none ∨ itemEnd pd item = none)
    ∧ (∀ s e, itemStart pd item = some s → itemEnd pd item = some e →
        lookupKey "id" item = none → lookupKey "title" item = none →
        lookupKey "room" item = none → lookupKey "description" item = none →
        parseItems pd (item :: rest)
          = { uid := "", summary := "Cours", start := s, end_ := e,
              location := "", description := "" } :: parseItems pd rest) := by
  constructor
  · constructor
    · intro hEq
      by_contra hC
      push_neg at hC
      obtain ⟨h1, h2⟩ := hC
      obtain ⟨s, hs⟩ := Option.ne_none_iff_exists'.mp h1
      obtain ⟨e, he⟩ := Option.ne_none_iff_exists'.mp h2
      rw [parseItems_cons_ok pd item rest s e hs he] at hEq
      exact absurd (congrArg List.length hEq) (by simp)
    · intro h
      apply parseItems_cons_skip
      rcases h with h | h <;> simp [itemParses, h]
  · intro s e hs he hid htitle hroom hdesc
    rw [parseItems_cons_ok pd item rest s e hs he]
    simp [mkRec, hid, htitle, hroom, hdesc]

/-- Witness for C10: an item carrying only its two dates produces the
record with all defaults. -/
theorem C10_skip_iff_dates_witness :
    parseItems (fun _ => some 0) [[("start", "x"), ("end", "y")]]
      = [{ uid := "", summary := "Cours", start := 0, end_ := 0,
           location := "", description := "" }] :=
  (C10_skip_iff_dates (fun _ => some 0) [("start", "x"), ("end", "y")] []).2
    0 0 rfl rfl rfl rfl rfl rfl

/-- Witness for C4 at a record with empty uid. -/
theorem C4_uid_fallback_witness :
    (buildEvent ⟨"", "Math", 5000000, 6000000, "", ""⟩).uid = "Math-5"
    ∧ (buildEvent ⟨"", "Math", 5000000, 6000000, "", ""⟩).uid ≠ "" := by
  have h := C4_uid_fallback ⟨"", "Math", 5000000, 6000000, "", ""⟩
    [⟨"", "Math", 5000000, 6000000, "", ""⟩]
  constructor
  · rw [h.1 rfl]; rfl
  · exact h.2 _ (by simp [build_calendar])

end SyncScript
